import Mathlib

/-!
Verification development for the Tjiep static security analyzer.

Shallow embedding of the analyzer's core pieces:
  * `src/bandit/core/blacklisting.py` (generic blacklist matcher, B001)
  * `src/bandit/plugins/request_without_timeout.py` (B113)
  * `src/bandit/plugins/ssh_no_host_key_verification.py` (B507)
  * the exit-status decision of `src/bandit/cli/main.py`

Context-facade helpers that live outside the four source files
(`check_call_arg_value`, `is_module_imported_like`,
`get_lineno_for_call_arg`) are modelled from the specification and
marked as such in their doc comments.
-/

namespace Tjiep

/-- Severity / confidence ranking constant `bandit.LOW` (the constants are
plain strings in the source). -/
def LOW : String := "LOW"

/-- Severity / confidence ranking constant `bandit.MEDIUM`. -/
def MEDIUM : String := "MEDIUM"

/-- Severity / confidence ranking constant `bandit.HIGH`. -/
def HIGH : String := "HIGH"

/-- Constant `issue.Cwe.NOTSET`: the default weakness id (0). -/
def Cwe.NOTSET : Nat := 0

/-- Modelled from the spec: the weakness-id table entry `cwemap.CWEMAP["B507"]`
(the `cwemap` module is not under src/; the concrete value is irrelevant to
every claim, which only inspect severity, confidence and message). -/
def CWEMAP_B507 : Nat := 295

/-- One finding, `bandit.core.issue.Issue`.  Severity and confidence are the
ranking strings above.  Field defaults mirror the Python constructor defaults
used by the plugins (`cwe` NOTSET, no ident, empty test id, no line). -/
structure Issue where
  severity : String
  confidence : String
  text : String
  cwe : Nat := Cwe.NOTSET
  ident : Option String := none
  test_id : String := ""
  lineno : Option Int := none
deriving DecidableEq, Repr

/-- A Python AST expression, restricted to the shapes `blacklisting.py`
inspects: a `Name` node (with its `id`), a `Str` literal (with its value),
and anything else (`Other`), for which both `is_instance(e, "Name")` and
`is_instance(e, "Str")` are false. -/
inductive PyExpr where
  | Name (id : String)
  | Str (s : String)
  | Other
deriving DecidableEq, Repr

/-- One `ast.alias` entry of an import statement: the real dotted module
name (`alias.name`) and the optional local alias (`alias.asname`). -/
structure PyAlias where
  name : String
  asname : Option String
deriving DecidableEq, Repr

/-- A Python AST statement node, restricted to the node types the blacklist
matcher dispatches on via `node.__class__.__name__`: `Call` (with `func` and
positional `args`), `Import` (with `names`), `ImportFrom` (with `module` and
`names`), and any other node type. -/
inductive PyNode where
  | Call (func : PyExpr) (args : List PyExpr)
  | Import (names : List PyAlias)
  | ImportFrom (module : Option String) (names : List PyAlias)
  | Other (typeName : String)
deriving DecidableEq, Repr

/-- Node type tag, `node.__class__.__name__`. -/
def PyNode.typeName : PyNode → String
  | .Call _ _ => "Call"
  | .Import _ => "Import"
  | .ImportFrom _ _ => "ImportFrom"
  | .Other t => t

/-- The per-node context facade handed to detectors.  The facade fields are
the values the traversal machinery (outside src/) computes for the current
node: for a `Call` node, `call_function_name_qual` is the best-effort fully
qualified callee name (a string, with a marker value rather than an
exception on resolution misses, per the spec), `call_function_name` its
final unqualified component, `call_args` the resolved positional-argument
values (`none` = the unresolved sentinel), `call_keywords` the resolved
keyword-argument values, and `imports` the per-file import table entries.
`get_lineno_for_call_arg` is modelled from the spec
(`lineRangeForCallArgument`): the source line pinned to a named argument. -/
structure Context where
  node : PyNode
  call_function_name_qual : String
  call_function_name : String
  call_args : List (Option String)
  call_keywords : List (String × Option String)
  imports : List String
  get_lineno_for_call_arg : String → Option Int

/-- Property `context.call_args_count`: the number of positional arguments.  In the
source both `call_args` and `call_args_count` are derived from the same
`node.args`, so they always agree; here the count is derived from the list. -/
def Context.call_args_count (context : Context) : Nat :=
  context.call_args.length

/-- One blacklist datum (a configuration dict per the blacklist
configuration contract): `id`, `message` (with a placeholder for the
matched name), `qualnames` (glob patterns), optional `level` (severity) and
optional `cwe`.  The dict may carry further keys such as a `confidence`;
`report_issue` never reads that key (it hardcodes HIGH). -/
structure BlacklistCheck where
  id : Option String
  message : String
  qualnames : List String
  level : Option String
  cwe : Option Nat
  confidence : Option String
deriving DecidableEq, Repr

/-- Function `blacklisting.report_issue(check, name)`: synthesize the Issue for a
matched blacklist rule.  `check.get("level", "MEDIUM")`, hardcoded
confidence `"HIGH"`, `check.get("cwe", Cwe.NOTSET)`, message with the
placeholder replaced by the matched name, `check.get("id", "LEGACY")`. -/
def report_issue (check : BlacklistCheck) (name : String) : Issue :=
  { severity := check.level.getD "MEDIUM"
    confidence := "HIGH"
    cwe := check.cwe.getD Cwe.NOTSET
    text := check.message.replace "{name}" name
    ident := some name
    test_id := check.id.getD "LEGACY" }

/-- A token of a translated glob pattern, per the Python standard library
`fnmatch.translate`: a literal character, a star (matches any run), a single
wildcard, or a character class with optional negation. -/
inductive GlobTok where
  | lit (c : Char)
  | star
  | any
  | cls (neg : Bool) (content : List Char)
deriving DecidableEq, Repr

/-- Scan forward for the closing bracket of a character class, returning the
accumulated content and the remaining pattern. -/
def findClose (acc : List Char) : List Char → Option (List Char × List Char)
  | [] => none
  | ']' :: rest => some (acc.reverse, rest)
  | c :: rest => findClose (c :: acc) rest

/-- Parse a character class after an opening bracket: an optional leading
negation marker, then content up to the closing bracket, where a closing
bracket placed first is literal content; `none` when the class never closes
(in which case the opening bracket matches literally, as in `fnmatch`). -/
def parseClass (s : List Char) : Option (Bool × List Char × List Char) :=
  match s with
  | '!' :: t =>
    match t with
    | ']' :: u =>
      match findClose [']'] u with
      | some (content, rest) => some (true, content, rest)
      | none => none
    | _ =>
      match findClose [] t with
      | some (content, rest) => some (true, content, rest)
      | none => none
  | ']' :: u =>
    match findClose [']'] u with
    | some (content, rest) => some (false, content, rest)
    | none => none
  | _ =>
    match findClose [] s with
    | some (content, rest) => some (false, content, rest)
    | none => none

/-- Tokenize a glob pattern (fuel-driven so that it reduces by evaluation;
the fuel is always sufficient since every step consumes at least one
character). -/
def tokenizeFuel : Nat → List Char → List GlobTok
  | 0, _ => []
  | _ + 1, [] => []
  | fuel + 1, '*' :: rest => GlobTok.star :: tokenizeFuel fuel rest
  | fuel + 1, '?' :: rest => GlobTok.any :: tokenizeFuel fuel rest
  | fuel + 1, '[' :: rest =>
    match parseClass rest with
    | some (neg, content, rest2) => GlobTok.cls neg content :: tokenizeFuel fuel rest2
    | none => GlobTok.lit '[' :: tokenizeFuel fuel rest
  | fuel + 1, c :: rest => GlobTok.lit c :: tokenizeFuel fuel rest

/-- Tokenize a whole glob pattern. -/
def tokenize (p : List Char) : List GlobTok :=
  tokenizeFuel p.length p

/-- Membership of a character in class content, honoring dash ranges; a
trailing or leading dash is literal, as in a translated regex class. -/
def classMatch : List Char → Char → Bool
  | a :: '-' :: b :: rest, c =>
    if a ≤ c && c ≤ b then true else classMatch rest c
  | a :: rest, c =>
    if a == c then true else classMatch rest c
  | [], _ => false

/-- Match a token list against a character list, anchored at both ends
(fuel-driven; every step shrinks tokens plus characters by at least one, so
the fuel used below never runs out). -/
def globMatchFuel : Nat → List GlobTok → List Char → Bool
  | 0, _, _ => false
  | _ + 1, [], [] => true
  | _ + 1, [], _ :: _ => false
  | fuel + 1, GlobTok.star :: ps, [] => globMatchFuel fuel ps []
  | fuel + 1, GlobTok.star :: ps, c :: cs =>
    globMatchFuel fuel ps (c :: cs) || globMatchFuel fuel (GlobTok.star :: ps) cs
  | fuel + 1, GlobTok.any :: ps, _ :: cs => globMatchFuel fuel ps cs
  | _ + 1, GlobTok.any :: _, [] => false
  | fuel + 1, GlobTok.lit p :: ps, c :: cs =>
    p == c && globMatchFuel fuel ps cs
  | _ + 1, GlobTok.lit _ :: _, [] => false
  | fuel + 1, GlobTok.cls neg content :: ps, c :: cs =>
    (classMatch content c != neg) && globMatchFuel fuel ps cs
  | _ + 1, GlobTok.cls _ _ :: _, [] => false

/-- The Python standard library `fnmatch.fnmatch(name, pat)` (POSIX case
rules, so no case folding): whole-string glob match with star, single-char
wildcard and character classes. -/
def fnmatch (name pat : String) : Bool :=
  globMatchFuel (pat.data.length + name.data.length + 1) (tokenize pat.data) name.data

/-- Containment test backing the Python `needle in haystack` operator on
strings: some suffix of the haystack has the needle as a prefix. -/
def listIsInfixOf [BEq α] : List α → List α → Bool
  | needle, [] => needle.isEmpty
  | needle, c :: cs => needle.isPrefixOf (c :: cs) || listIsInfixOf needle cs

/-- The Python expression `needle in haystack` for strings: substring
containment. -/
def strIn (needle haystack : String) : Bool :=
  listIsInfixOf needle.data haystack.data

/-- The Python test `s.startswith(pre)`, over the underlying character
lists. -/
def pyStartswith (s pre : String) : Bool :=
  pre.data.isPrefixOf s.data

/-- Name resolution of the Call branch of `blacklisting.blacklist`: when the
callee is the bare builtin `__import__`, take the first positional argument
when it is a string literal, the marker `"UNKNOWN"` when it is some other
expression, and the empty string when there are no arguments; otherwise take
`context.call_function_name_qual`, and when that is one of the dynamic-import
functions replace it by the resolved first positional argument (which is the
`none` sentinel for a non-literal), or, with no positional arguments, by the
keyword argument `name` — an access that raises a `KeyError` when no such
keyword exists, modelled as the error case. -/
def resolveCallName (context : Context) (func : PyExpr) (args : List PyExpr) :
    Except String (Option String) :=
  match func with
  | PyExpr.Name "__import__" =>
    match args with
    | [] => Except.ok (some "")
    | a :: _ =>
      match a with
      | PyExpr.Str s => Except.ok (some s)
      | _ => Except.ok (some "UNKNOWN")
  | _ =>
    let name := context.call_function_name_qual
    if name == "importlib.import_module" || name == "importlib.__import__" then
      if context.call_args_count > 0 then
        Except.ok (context.call_args.headD none)
      else
        match context.call_keywords.lookup "name" with
        | some v => Except.ok v
        | none => Except.error "KeyError: name"
    else
      Except.ok (some name)

/-- Whether any pattern of one blacklist datum glob-matches the resolved
call name (the inner qualname loop of the Call branch). -/
def callPatternHit (check : BlacklistCheck) (name : String) : Bool :=
  check.qualnames.any (fun qn => fnmatch name qn)

/-- The rule loop of the Call branch: return the Issue of the first datum
with a matching pattern, guarded by the resolved name not being the `none`
sentinel. -/
def scanCallChecks : List BlacklistCheck → Option String → Option Issue
  | _, none => none
  | [], some _ => none
  | check :: rest, some n =>
    if callPatternHit check n then some (report_issue check n)
    else scanCallChecks rest (some n)

/-- Whether any pattern of one blacklist datum is a string prefix of the
prefixed import name (the inner qualname loop of the Import branch). -/
def importAliasHit (check : BlacklistCheck) (pfx : String) (al : PyAlias) : Bool :=
  check.qualnames.any (fun qn => pyStartswith (pfx ++ al.name) qn)

/-- The rule loop of the Import branch: for each datum in order, for each
imported alias in order, return the datum together with the alias real name
on the first prefix hit. -/
def findImportHit : List BlacklistCheck → String → List PyAlias → Option (BlacklistCheck × String)
  | [], _, _ => none
  | check :: rest, pfx, names =>
    match names.find? (fun al => importAliasHit check pfx al) with
    | some al => some (check, al.name)
    | none => findImportHit rest pfx names

/-- The dot-suffixed module of an ImportFrom node, empty when the module is
absent (relative import). -/
def modulePfx : Option String → String
  | some m => m ++ "."
  | none => ""

/-- Function `blacklisting.blacklist(context, config)`, the generic blacklist
test B001.  Dispatches on the node type tag: for Call nodes it resolves the
qualified callee name (propagating the possible `KeyError`) and scans the
Call rules with glob matching; for Import and ImportFrom nodes it scans the
rules with a string-prefix test over each imported name (prefixed by the
dotted module for ImportFrom); any other node type yields nothing.  The
config maps a node type tag to its loaded rule list. -/
def blacklist (context : Context) (config : String → List BlacklistCheck) :
    Except String (Option Issue) :=
  match context.node with
  | PyNode.Call func args =>
    match resolveCallName context func args with
    | Except.error e => Except.error e
    | Except.ok name => Except.ok (scanCallChecks (config "Call") name)
  | PyNode.Import names =>
    Except.ok (Option.map (fun p => report_issue p.1 p.2)
      (findImportHit (config "Import") "" names))
  | PyNode.ImportFrom module names =>
    Except.ok (Option.map (fun p => report_issue p.1 p.2)
      (findImportHit (config "ImportFrom") (modulePfx module) names))
  | PyNode.Other _ => Except.ok none

/-- Modelled from the spec: `checkCallArgValue(argumentName)` of the context
facade (`bandit/core/node_visitor` context helpers are not under src/) —
the literal value bound to the argument by keyword if present, else absence;
an unresolvable bound expression carries the `none` sentinel. -/
def check_call_arg_value (context : Context) (argname : String) : Option String :=
  match context.call_keywords.lookup argname with
  | some v => v
  | none => none

/-- Modelled from the spec: `checkCallArgValue(argumentName, expectedValue)`
— the boolean match of the bound literal value against the expected value,
false on absence (the Python method returns a falsy `None` there). -/
def check_call_arg_value_eq (context : Context) (argname expected : String) : Bool :=
  match check_call_arg_value context argname with
  | some v => v == expected
  | none => false

/-- Modelled from the spec: `isModuleImportedLike(moduleName)` of the context
facade — true when some import of the current file resolves to the module
name or to a dotted prefix of it. -/
def is_module_imported_like (context : Context) (module : String) : Bool :=
  context.imports.any (fun imp => imp == module || pyStartswith module (imp ++ "."))

/-- The HTTP verb tuple of the B113 plugin. -/
def http_verbs : List String :=
  ["get", "options", "head", "post", "put", "patch", "delete"]

/-- Plugin B113, `request_without_timeout(context)`: when the qualified call
name contains the substring "requests" and the unqualified name is one of
the HTTP verbs, report a missing timeout (absent argument) or a timeout
explicitly bound to None; otherwise no finding. -/
def request_without_timeout (context : Context) : Option Issue :=
  if strIn "requests" context.call_function_name_qual &&
      http_verbs.contains context.call_function_name then
    match check_call_arg_value context "timeout" with
    | none =>
      some { severity := MEDIUM, confidence := LOW,
             text := "Requests call without timeout" }
    | some _ =>
      if check_call_arg_value_eq context "timeout" "None" then
        some { severity := MEDIUM, confidence := LOW,
               text := "Requests call with timeout set to None" }
      else none
  else none

/-- Plugin B507, `ssh_no_host_key_verification(context)`: when a
paramiko-like module is imported and the call is named
`set_missing_host_key_policy` with a nonempty positional argument list whose
first resolved value is `AutoAddPolicy` or `WarningPolicy`, report a HIGH
severity, MEDIUM confidence finding; otherwise no finding. -/
def ssh_no_host_key_verification (context : Context) : Option Issue :=
  if is_module_imported_like context "paramiko" &&
      context.call_function_name == "set_missing_host_key_policy" then
    match context.call_args with
    | some v :: _ =>
      if v == "AutoAddPolicy" || v == "WarningPolicy" then
        some { severity := HIGH, cwe := CWEMAP_B507, confidence := MEDIUM,
               text := "Paramiko call with policy set to automatically trust the unknown host key.",
               lineno := context.get_lineno_for_call_arg "set_missing_host_key_policy" }
      else none
    | _ => none
  else none

/-- The exit-status decision at the end of `cli/main.py`: exit 1 when the
count of results matching the selected severity and confidence filter is
positive and the exit-zero override is unset, else exit 0. -/
def exit_code (results_count : Nat) (exit_zero : Bool) : Nat :=
  if results_count > 0 && !exit_zero then 1 else 0

/-- Reduction of the blacklist on a Call node whose name resolution
succeeds: the result is the scan of the loaded Call rules. -/
theorem blacklist_call_eq (context : Context) (config : String → List BlacklistCheck)
    (func : PyExpr) (args : List PyExpr) (r : Option String)
    (hnode : context.node = PyNode.Call func args)
    (hres : resolveCallName context func args = Except.ok r) :
    blacklist context config = Except.ok (scanCallChecks (config "Call") r) := by
  have h1 : blacklist context config =
      match resolveCallName context func args with
      | Except.error e => Except.error e
      | Except.ok name => Except.ok (scanCallChecks (config "Call") name) := by
    unfold blacklist
    rw [hnode]
  rw [h1, hres]

/-- The Call-rule scan fires on the first datum with a matching pattern:
given a decomposition with a known hit, there is an earliest hit, no later
than the known one, and the scan returns exactly its Issue. -/
theorem scan_first_decomp (n : String) (l₁ : List BlacklistCheck) :
    ∀ (rest : List BlacklistCheck) (c₁ : BlacklistCheck),
      callPatternHit c₁ n = true →
      ∃ pre c post, l₁ ++ c₁ :: rest = pre ++ c :: post ∧
        (∀ c' ∈ pre, callPatternHit c' n = false) ∧
        callPatternHit c n = true ∧
        pre.length ≤ l₁.length ∧
        scanCallChecks (l₁ ++ c₁ :: rest) (some n) = some (report_issue c n) := by
  induction l₁ with
  | nil =>
    intro rest c₁ h
    exact ⟨[], c₁, rest, rfl, by simp, h, by simp, by simp [scanCallChecks, h]⟩
  | cons a l ih =>
    intro rest c₁ h
    cases ha : callPatternHit a n with
    | true =>
      exact ⟨[], a, l ++ c₁ :: rest, rfl, by simp, ha, by simp,
        by simp [scanCallChecks, ha]⟩
    | false =>
      obtain ⟨pre, c, post, hdec, hpre, hc, hlen, hscan⟩ := ih rest c₁ h
      refine ⟨a :: pre, c, post, ?_, ?_, hc, ?_, ?_⟩
      · simp [hdec]
      · intro c' hc'
        rcases List.mem_cons.mp hc' with rfl | hc'
        · exact ha
        · exact hpre c' hc'
      · simpa using Nat.succ_le_succ hlen
      · have hred : scanCallChecks (a :: (l ++ c₁ :: rest)) (some n) =
            scanCallChecks (l ++ c₁ :: rest) (some n) := by
          simp [scanCallChecks, ha]
        rw [List.cons_append, hred, hscan]

/-- The Call-rule scan yields a finding exactly when some loaded datum has a
glob-matching pattern. -/
theorem scanCallChecks_isSome_iff (checks : List BlacklistCheck) (n : String) :
    (∃ iss, scanCallChecks checks (some n) = some iss) ↔
      ∃ c ∈ checks, callPatternHit c n = true := by
  induction checks with
  | nil => simp [scanCallChecks]
  | cons c rest ih =>
    cases h : callPatternHit c n with
    | true =>
      constructor
      · intro _
        exact ⟨c, List.mem_cons_self c rest, h⟩
      · intro _
        exact ⟨report_issue c n, by simp [scanCallChecks, h]⟩
    | false =>
      have hred : scanCallChecks (c :: rest) (some n) = scanCallChecks rest (some n) := by
        simp [scanCallChecks, h]
      rw [hred, ih]
      constructor
      · rintro ⟨c', hc', hhit⟩
        exact ⟨c', List.mem_cons_of_mem c hc', hhit⟩
      · rintro ⟨c', hc', hhit⟩
        rcases List.mem_cons.mp hc' with rfl | hm
        · simp [h] at hhit
        · exact ⟨c', hm, hhit⟩

/-- The Import-rule scan yields a hit exactly when some loaded datum has a
pattern that is a prefix of some prefixed imported name. -/
theorem findImportHit_isSome_iff (checks : List BlacklistCheck) (pfx : String)
    (names : List PyAlias) :
    (∃ p, findImportHit checks pfx names = some p) ↔
      ∃ c ∈ checks, ∃ al ∈ names, importAliasHit c pfx al = true := by
  induction checks with
  | nil => simp [findImportHit]
  | cons c rest ih =>
    cases hfind : names.find? (fun al => importAliasHit c pfx al) with
    | some al =>
      have h1 : al ∈ names := List.mem_of_find?_eq_some hfind
      have h2 : importAliasHit c pfx al = true := by
        simpa using List.find?_some hfind
      have hred : findImportHit (c :: rest) pfx names = some (c, al.name) := by
        simp [findImportHit, hfind]
      constructor
      · intro _
        exact ⟨c, List.mem_cons_self c rest, al, h1, h2⟩
      · intro _
        exact ⟨(c, al.name), hred⟩
    | none =>
      have hnone : ∀ al ∈ names, importAliasHit c pfx al = false := by
        intro al hal
        have h3 := List.find?_eq_none.mp hfind al hal
        simpa using h3
      have hred : findImportHit (c :: rest) pfx names = findImportHit rest pfx names := by
        simp [findImportHit, hfind]
      rw [hred, ih]
      constructor
      · rintro ⟨c', hc', al, hal, hhit⟩
        exact ⟨c', List.mem_cons_of_mem c hc', al, hal, hhit⟩
      · rintro ⟨c', hc', al, hal, hhit⟩
        rcases List.mem_cons.mp hc' with rfl | hm
        · simp [hnone al hal] at hhit
        · exact ⟨c', hm, al, hal, hhit⟩

/-- On a single-alias import, the Import-rule scan is the first datum whose
pattern list has a prefix of the prefixed real name, paired with that real
name. -/
theorem findImportHit_singleton (checks : List BlacklistCheck) (pfx : String)
    (al : PyAlias) :
    findImportHit checks pfx [al] =
      (checks.find? (fun c => importAliasHit c pfx al)).map (fun c => (c, al.name)) := by
  induction checks with
  | nil => rfl
  | cons c rest ih =>
    cases h : importAliasHit c pfx al with
    | true => simp [findImportHit, List.find?, h]
    | false =>
      have h1 : findImportHit (c :: rest) pfx [al] = findImportHit rest pfx [al] := by
        simp [findImportHit, List.find?, h]
      have h2 : List.find? (fun c' => importAliasHit c' pfx al) (c :: rest) =
          List.find? (fun c' => importAliasHit c' pfx al) rest := by
        simp [List.find?, h]
      rw [h1, h2, ih]

/-- Fixture for the C1 witness: a first-loaded rule whose glob pattern
covers every telnetlib name. -/
def checkC1a : BlacklistCheck :=
  { id := some "B401", message := "telnet import of {name}", qualnames := ["telnetlib.*"],
    level := some "HIGH", cwe := some 319, confidence := none }

/-- Fixture for the C1 witness: a later-loaded rule whose pattern also
matches the same resolved name. -/
def checkC1b : BlacklistCheck :=
  { id := some "B402", message := "telnet use of {name}", qualnames := ["telnetlib.Telnet"],
    level := none, cwe := none, confidence := none }

/-- Fixture for the C1 witness: a rule set with both rules loaded for Call
nodes. -/
def cfgC1 : String → List BlacklistCheck :=
  fun t => if t == "Call" then [checkC1a, checkC1b] else []

/-- Fixture for the C1 witness: a Call-node context resolving to the
qualified name telnetlib.Telnet. -/
def ctxC1 : Context :=
  { node := PyNode.Call PyExpr.Other [], call_function_name_qual := "telnetlib.Telnet",
    call_function_name := "Telnet", call_args := [], call_keywords := [], imports := [],
    get_lineno_for_call_arg := fun _ => none }

/-- C1: for every Call node and blacklist rule set for its node type, when
two or more loaded rules have patterns matching the resolved qualified
name, the blacklist function returns exactly one Issue — the one
synthesized from the earliest rule in loaded order with a matching pattern
(every rule before it matching nothing) — and never two Issues for one
node. -/
theorem blacklist_call_first_match_wins
    (context : Context) (config : String → List BlacklistCheck)
    (func : PyExpr) (args : List PyExpr) (name : String)
    (l₁ l₂ l₃ : List BlacklistCheck) (c₁ c₂ : BlacklistCheck)
    (hnode : context.node = PyNode.Call func args)
    (hname : resolveCallName context func args = Except.ok (some name))
    (hcfg : config "Call" = l₁ ++ c₁ :: (l₂ ++ c₂ :: l₃))
    (h₁ : callPatternHit c₁ name = true)
    (h₂ : callPatternHit c₂ name = true) :
    ∃ pre c post,
      config "Call" = pre ++ c :: post ∧
      (∀ c' ∈ pre, callPatternHit c' name = false) ∧
      callPatternHit c name = true ∧
      pre.length ≤ l₁.length ∧
      blacklist context config = Except.ok (some (report_issue c name)) := by
  obtain ⟨pre, c, post, hdec, hpre, hc, hlen, hscan⟩ :=
    scan_first_decomp name l₁ (l₂ ++ c₂ :: l₃) c₁ h₁
  refine ⟨pre, c, post, hcfg.trans hdec, hpre, hc, hlen, ?_⟩
  rw [blacklist_call_eq context config func args (some name) hnode hname, hcfg, hscan]

/-- Witness for C1: at a concrete Call-node context and two-rule
configuration where both rules match telnetlib.Telnet, the earliest
matching rule alone produces the single Issue. -/
theorem blacklist_call_first_match_wins_witness :
    ∃ pre c post,
      cfgC1 "Call" = pre ++ c :: post ∧
      (∀ c' ∈ pre, callPatternHit c' "telnetlib.Telnet" = false) ∧
      callPatternHit c "telnetlib.Telnet" = true ∧
      pre.length ≤ ([] : List BlacklistCheck).length ∧
      blacklist ctxC1 cfgC1 = Except.ok (some (report_issue c "telnetlib.Telnet")) :=
  blacklist_call_first_match_wins ctxC1 cfgC1 PyExpr.Other [] "telnetlib.Telnet"
    [] [] [] checkC1a checkC1b rfl rfl rfl (by decide) (by decide)

/-- Fixture for the C2 counterexample: a rule datum whose configuration
dict declares confidence LOW; the blacklist reporter never reads that
key. -/
def checkC2 : BlacklistCheck :=
  { id := some "B999", message := "dangerous use of {name}", qualnames := ["evil.*"],
    level := some "HIGH", cwe := some 78, confidence := some "LOW" }

/-- C2 counterexample: the claim that the Issue's confidence equals the
rule's declared confidence is false at this concrete rule — the rule
declares LOW but the synthesized Issue carries the hardcoded HIGH. -/
theorem report_issue_ignores_rule_confidence :
    checkC2.confidence = some "LOW" ∧
    (report_issue checkC2 "evil.call").confidence = "HIGH" ∧
    ¬(report_issue checkC2 "evil.call").confidence = "LOW" :=
  ⟨rfl, rfl, by decide⟩

/-- C2 (amended): the Issue synthesized for a matching blacklist rule
carries the rule's declared severity (its level key, default MEDIUM), the
rule's declared weakness id (default NOTSET), the rule's message with every
occurrence of the name placeholder replaced by the matched qualified name,
and the rule id (default LEGACY); its confidence is always HIGH, regardless
of anything the rule declares. -/
theorem report_issue_fields (check : BlacklistCheck) (name : String) :
    (report_issue check name).severity = check.level.getD "MEDIUM" ∧
    (report_issue check name).confidence = "HIGH" ∧
    (report_issue check name).cwe = check.cwe.getD Cwe.NOTSET ∧
    (report_issue check name).text = check.message.replace "{name}" name ∧
    (report_issue check name).ident = some name ∧
    (report_issue check name).test_id = check.id.getD "LEGACY" :=
  ⟨rfl, rfl, rfl, rfl, rfl, rfl⟩

/-- Fixture for C4: the failing input — a Call node for a dynamic-import
function with zero positional arguments and no keyword arguments. -/
def ctxC4 : Context :=
  { node := PyNode.Call PyExpr.Other [], call_function_name_qual := "importlib.import_module",
    call_function_name := "import_module", call_args := [], call_keywords := [], imports := [],
    get_lineno_for_call_arg := fun _ => none }

/-- Fixture for C4: any loaded rule set (empty here; the raise happens
before the rule loop). -/
def cfgC4 : String → List BlacklistCheck := fun _ => []

/-- C4: evaluating the blacklist at the failing input — a dynamic-import
call with no positional arguments and no recognized keyword argument — the
code raises a KeyError on the keyword-table access instead of degrading to
an unknown marker without raising, as the claim states. -/
theorem blacklist_importlib_no_args_keyerror :
    blacklist ctxC4 cfgC4 = Except.error "KeyError: name" := rfl

/-- C8: after a scan, the process exit status is nonzero exactly when the
count of Issues matching the severity and confidence filter is positive and
the exit-zero override is unset; the override, or a zero matching count,
forces exit status zero. -/
theorem exit_status_policy (results_count : Nat) (exit_zero : Bool) :
    (exit_code results_count exit_zero ≠ 0 ↔ 0 < results_count ∧ exit_zero = false) ∧
    (exit_zero = true → exit_code results_count exit_zero = 0) ∧
    (results_count = 0 → exit_code results_count exit_zero = 0) ∧
    (0 < results_count → exit_zero = false → exit_code results_count exit_zero = 1) := by
  cases exit_zero with
  | true => simp [exit_code]
  | false =>
    rcases Nat.eq_zero_or_pos results_count with h | h
    · subst h
      simp [exit_code]
    · simp [exit_code, h, Nat.pos_iff_ne_zero.mp h]

/-- Witness for C8: three positive matching results exit 1, unless the
override is set; zero matching results exit 0. -/
theorem exit_status_policy_witness :
    exit_code 3 false = 1 ∧ exit_code 3 true = 0 ∧ exit_code 0 false = 0 :=
  ⟨(exit_status_policy 3 false).2.2.2 (by decide) rfl,
   (exit_status_policy 3 true).2.1 rfl,
   (exit_status_policy 0 false).2.2.1 rfl⟩

/-- Reduction of the blacklist on an Import node: the result is the
prefix-scan of the loaded Import rules with an empty module prefix. -/
theorem blacklist_import_eq (context : Context) (config : String → List BlacklistCheck)
    (names : List PyAlias) (hnode : context.node = PyNode.Import names) :
    blacklist context config =
      Except.ok (Option.map (fun p => report_issue p.1 p.2)
        (findImportHit (config "Import") "" names)) := by
  unfold blacklist
  rw [hnode]

/-- Reduction of the blacklist on an ImportFrom node: the result is the
prefix-scan of the loaded ImportFrom rules with the dotted module prefix. -/
theorem blacklist_importFrom_eq (context : Context) (config : String → List BlacklistCheck)
    (module : Option String) (names : List PyAlias)
    (hnode : context.node = PyNode.ImportFrom module names) :
    blacklist context config =
      Except.ok (Option.map (fun p => report_issue p.1 p.2)
        (findImportHit (config "ImportFrom") (modulePfx module) names)) := by
  unfold blacklist
  rw [hnode]

/-- With an empty module, the prefixed name tested for an import alias is
just the real imported name. -/
theorem importAliasHit_empty (check : BlacklistCheck) (al : PyAlias) :
    importAliasHit check "" al =
      check.qualnames.any (fun qn => pyStartswith al.name qn) := rfl

/-- C3: the blacklist match policy depends on node type — for a Call node
the resolved qualified name is tested by whole-string fnmatch glob equality
against each pattern, while for Import and ImportFrom nodes the tested name
is the optional dotted module concatenated with each imported name, under a
string-prefix test, not a glob. -/
theorem blacklist_match_policy (config : String → List BlacklistCheck) :
    (∀ (context : Context) (func : PyExpr) (args : List PyExpr) (name : String),
      context.node = PyNode.Call func args →
      resolveCallName context func args = Except.ok (some name) →
      ((∃ iss, blacklist context config = Except.ok (some iss)) ↔
        ∃ check ∈ config "Call", ∃ qn ∈ check.qualnames, fnmatch name qn = true)) ∧
    (∀ (context : Context) (names : List PyAlias),
      context.node = PyNode.Import names →
      ((∃ iss, blacklist context config = Except.ok (some iss)) ↔
        ∃ check ∈ config "Import", ∃ al ∈ names, ∃ qn ∈ check.qualnames,
          pyStartswith al.name qn = true)) ∧
    (∀ (context : Context) (module : Option String) (names : List PyAlias),
      context.node = PyNode.ImportFrom module names →
      ((∃ iss, blacklist context config = Except.ok (some iss)) ↔
        ∃ check ∈ config "ImportFrom", ∃ al ∈ names, ∃ qn ∈ check.qualnames,
          pyStartswith (modulePfx module ++ al.name) qn = true)) := by
  refine ⟨?_, ?_, ?_⟩
  · intro context func args name hnode hname
    rw [blacklist_call_eq context config func args (some name) hnode hname]
    simp only [Except.ok.injEq]
    rw [scanCallChecks_isSome_iff]
    simp [callPatternHit, List.any_eq_true]
  · intro context names hnode
    rw [blacklist_import_eq context config names hnode]
    simp only [Except.ok.injEq]
    constructor
    · rintro ⟨iss, hiss⟩
      obtain ⟨p, hp, _⟩ := Option.map_eq_some'.mp hiss
      have h2 := (findImportHit_isSome_iff (config "Import") "" names).mp ⟨p, hp⟩
      simpa [importAliasHit_empty, List.any_eq_true] using h2
    · intro h
      have h2 : ∃ c ∈ config "Import", ∃ al ∈ names, importAliasHit c "" al = true := by
        simpa [importAliasHit_empty, List.any_eq_true] using h
      obtain ⟨p, hp⟩ := (findImportHit_isSome_iff (config "Import") "" names).mpr h2
      exact ⟨report_issue p.1 p.2, by rw [hp]; rfl⟩
  · intro context module names hnode
    rw [blacklist_importFrom_eq context config module names hnode]
    simp only [Except.ok.injEq]
    constructor
    · rintro ⟨iss, hiss⟩
      obtain ⟨p, hp, _⟩ := Option.map_eq_some'.mp hiss
      have h2 := (findImportHit_isSome_iff (config "ImportFrom") (modulePfx module) names).mp
        ⟨p, hp⟩
      simpa [importAliasHit, List.any_eq_true] using h2
    · intro h
      have h2 : ∃ c ∈ config "ImportFrom", ∃ al ∈ names,
          importAliasHit c (modulePfx module) al = true := by
        simpa [importAliasHit, List.any_eq_true] using h
      obtain ⟨p, hp⟩ :=
        (findImportHit_isSome_iff (config "ImportFrom") (modulePfx module) names).mpr h2
      exact ⟨report_issue p.1 p.2, by rw [hp]; rfl⟩

/-- Fixture for the C3 witness: a Call rule with a glob pattern over the os
module. -/
def checkC3 : BlacklistCheck :=
  { id := some "B605", message := "shell call {name}", qualnames := ["os.*"],
    level := some "LOW", cwe := some 78, confidence := none }

/-- Fixture for the C3 witness: the rule loaded for Call nodes. -/
def cfgC3 : String → List BlacklistCheck :=
  fun t => if t == "Call" then [checkC3] else []

/-- Fixture for the C3 witness: a Call-node context resolving to
os.system. -/
def ctxC3 : Context :=
  { node := PyNode.Call PyExpr.Other [], call_function_name_qual := "os.system",
    call_function_name := "system", call_args := [], call_keywords := [], imports := [],
    get_lineno_for_call_arg := fun _ => none }

/-- Witness for C3: the Call-node characterization applied at a concrete
context whose resolved name os.system glob-matches the pattern. -/
theorem blacklist_match_policy_witness :
    ∃ iss, blacklist ctxC3 cfgC3 = Except.ok (some iss) :=
  ((blacklist_match_policy cfgC3).1 ctxC3 PyExpr.Other [] "os.system" rfl rfl).mpr
    ⟨checkC3, by decide, "os.*", by decide, by decide⟩

/-- Fixture for the C7 witness: a first rule whose pattern is the local
alias p itself — it must not fire. -/
def checkC7a : BlacklistCheck :=
  { id := some "B404", message := "alias import of {name}", qualnames := ["p"],
    level := none, cwe := none, confidence := none }

/-- Fixture for the C7 witness: a second rule whose pattern is the real
module prefix os — it fires on the real dotted name. -/
def checkC7b : BlacklistCheck :=
  { id := some "B405", message := "os import of {name}", qualnames := ["os"],
    level := none, cwe := none, confidence := none }

/-- Fixture for the C7 witness: both rules loaded for Import nodes. -/
def cfgC7 : String → List BlacklistCheck :=
  fun t => if t == "Import" then [checkC7a, checkC7b] else []

/-- Fixture for the C7 witness: the import statement binding os.path to the
local alias p. -/
def ctxC7 : Context :=
  { node := PyNode.Import [⟨"os.path", some "p"⟩], call_function_name_qual := "",
    call_function_name := "", call_args := [], call_keywords := [], imports := [],
    get_lineno_for_call_arg := fun _ => none }

/-- C7: on the import statement binding os.path to the local alias p, for
every loaded rule set the blacklist prefix match tests the real dotted
module name os.path — the result is exactly the first rule with a pattern
prefixing "os.path", reporting "os.path"; the alias p plays no role. -/
theorem import_alias_uses_real_name (context : Context)
    (config : String → List BlacklistCheck)
    (hnode : context.node = PyNode.Import [⟨"os.path", some "p"⟩]) :
    blacklist context config =
      Except.ok ((List.find?
          (fun c => c.qualnames.any (fun qn => pyStartswith "os.path" qn))
          (config "Import")).map (fun c => report_issue c "os.path")) := by
  rw [blacklist_import_eq context config [⟨"os.path", some "p"⟩] hnode,
    findImportHit_singleton, Option.map_map]
  rfl

/-- Witness for C7: with the alias-named rule loaded first, it is skipped
("os.path" does not start with "p") and the os rule fires on the real
name. -/
theorem import_alias_uses_real_name_witness :
    blacklist ctxC7 cfgC7 = Except.ok (some (report_issue checkC7b "os.path")) := by
  rw [import_alias_uses_real_name ctxC7 cfgC7 rfl]
  rfl

/-- C5: for every requests HTTP-verb call — qualified name containing
"requests" and an HTTP-verb final name — when the timeout argument is
absent the detector yields exactly one MEDIUM severity, LOW confidence
Issue with the missing-timeout message; when timeout is bound to the
literal None it yields exactly one Issue with the distinct set-to-None
message and the same severity and confidence; when timeout is bound to any
other literal it yields no Issue. -/
theorem b113_timeout_scenarios (context : Context)
    (hreq : strIn "requests" context.call_function_name_qual = true)
    (hverb : context.call_function_name ∈ http_verbs) :
    (check_call_arg_value context "timeout" = none →
      request_without_timeout context =
        some { severity := MEDIUM, confidence := LOW,
               text := "Requests call without timeout" }) ∧
    (check_call_arg_value context "timeout" = some "None" →
      request_without_timeout context =
        some { severity := MEDIUM, confidence := LOW,
               text := "Requests call with timeout set to None" }) ∧
    (∀ v, check_call_arg_value context "timeout" = some v → v ≠ "None" →
      request_without_timeout context = none) := by
  have hverbb : http_verbs.contains context.call_function_name = true := by
    simpa using hverb
  refine ⟨?_, ?_, ?_⟩
  · intro h
    simp [request_without_timeout, hreq, hverb, hverbb, h]
  · intro h
    simp [request_without_timeout, check_call_arg_value_eq, hreq, hverb, hverbb, h]
  · intro v h hv
    have hbeq : (v == "None") = false := beq_eq_false_iff_ne.mpr hv
    simp [request_without_timeout, check_call_arg_value_eq, hreq, hverb, hverbb, h, hbeq]

/-- Fixture for the C5 witness: the call requests.get(url) with no timeout
keyword. -/
def ctxC5a : Context :=
  { node := PyNode.Call PyExpr.Other [], call_function_name_qual := "requests.get",
    call_function_name := "get", call_args := [some "url"], call_keywords := [],
    imports := ["requests"], get_lineno_for_call_arg := fun _ => none }

/-- Fixture for the C5 witness: the same call with timeout bound to the
literal None. -/
def ctxC5b : Context :=
  { node := PyNode.Call PyExpr.Other [], call_function_name_qual := "requests.get",
    call_function_name := "get", call_args := [some "url"],
    call_keywords := [("timeout", some "None")], imports := ["requests"],
    get_lineno_for_call_arg := fun _ => none }

/-- Fixture for the C5 witness: the same call with timeout bound to the
literal 5. -/
def ctxC5c : Context :=
  { node := PyNode.Call PyExpr.Other [], call_function_name_qual := "requests.get",
    call_function_name := "get", call_args := [some "url"],
    call_keywords := [("timeout", some "5")], imports := ["requests"],
    get_lineno_for_call_arg := fun _ => none }

/-- Witness for C5: the three concrete scenarios — requests.get(url) fires
the missing-timeout Issue, timeout=None fires the set-to-None Issue, and
timeout=5 fires nothing. -/
theorem b113_timeout_scenarios_witness :
    request_without_timeout ctxC5a =
      some { severity := MEDIUM, confidence := LOW,
             text := "Requests call without timeout" } ∧
    request_without_timeout ctxC5b =
      some { severity := MEDIUM, confidence := LOW,
             text := "Requests call with timeout set to None" } ∧
    request_without_timeout ctxC5c = none :=
  ⟨(b113_timeout_scenarios ctxC5a (by decide) (by decide)).1 rfl,
   (b113_timeout_scenarios ctxC5b (by decide) (by decide)).2.1 rfl,
   (b113_timeout_scenarios ctxC5c (by decide) (by decide)).2.2 "5" rfl (by decide)⟩

/-- C6: a set_missing_host_key_policy call whose first positional argument
resolves to AutoAddPolicy yields exactly one HIGH severity, MEDIUM
confidence Issue when the import table shows a paramiko-like import, and no
Issue when no paramiko import is traceable. -/
theorem ssh_host_key_policy_paramiko_gate (context : Context)
    (hname : context.call_function_name = "set_missing_host_key_policy")
    (harg : ∃ rest, context.call_args = some "AutoAddPolicy" :: rest) :
    (is_module_imported_like context "paramiko" = true →
      ssh_no_host_key_verification context =
        some { severity := HIGH, cwe := CWEMAP_B507, confidence := MEDIUM,
               text := "Paramiko call with policy set to automatically trust the unknown host key.",
               lineno := context.get_lineno_for_call_arg "set_missing_host_key_policy" }) ∧
    (is_module_imported_like context "paramiko" = false →
      ssh_no_host_key_verification context = none) := by
  obtain ⟨rest, hargs⟩ := harg
  constructor
  · intro himp
    simp [ssh_no_host_key_verification, himp, hname, hargs]
  · intro himp
    simp [ssh_no_host_key_verification, himp]

/-- Fixture for the C6 witness: the flagged call in a file importing
paramiko. -/
def ctxC6a : Context :=
  { node := PyNode.Call PyExpr.Other [PyExpr.Name "AutoAddPolicy"],
    call_function_name_qual := "ssh_client.set_missing_host_key_policy",
    call_function_name := "set_missing_host_key_policy",
    call_args := [some "AutoAddPolicy"], call_keywords := [], imports := ["paramiko"],
    get_lineno_for_call_arg := fun _ => some 4 }

/-- Fixture for the C6 witness: the same call in a file with no traceable
paramiko import. -/
def ctxC6b : Context :=
  { node := PyNode.Call PyExpr.Other [PyExpr.Name "AutoAddPolicy"],
    call_function_name_qual := "ssh_client.set_missing_host_key_policy",
    call_function_name := "set_missing_host_key_policy",
    call_args := [some "AutoAddPolicy"], call_keywords := [], imports := [],
    get_lineno_for_call_arg := fun _ => some 4 }

/-- Witness for C6: with paramiko imported the call yields the HIGH/MEDIUM
Issue; without any import it yields nothing. -/
theorem ssh_host_key_policy_paramiko_gate_witness :
    ssh_no_host_key_verification ctxC6a =
      some { severity := HIGH, cwe := CWEMAP_B507, confidence := MEDIUM,
             text := "Paramiko call with policy set to automatically trust the unknown host key.",
             lineno := some 4 } ∧
    ssh_no_host_key_verification ctxC6b = none :=
  ⟨(ssh_host_key_policy_paramiko_gate ctxC6a rfl ⟨[], rfl⟩).1 rfl,
   (ssh_host_key_policy_paramiko_gate ctxC6b rfl ⟨[], rfl⟩).2 rfl⟩

/-- C9: with the timeout argument untraceable or absent, the B113 detector
fires exactly when the resolved qualified call name contains the substring
"requests" anywhere and the final unqualified name is an HTTP verb —
substring containment, not a module-prefix test, so a name such as
my_requests_util.get is also flagged. -/
theorem b113_substring_gate (context : Context)
    (hto : check_call_arg_value context "timeout" = none) :
    request_without_timeout context ≠ none ↔
      (strIn "requests" context.call_function_name_qual = true ∧
       context.call_function_name ∈ http_verbs) := by
  constructor
  · intro hfire
    cases hgate : (strIn "requests" context.call_function_name_qual &&
        http_verbs.contains context.call_function_name) with
    | false =>
      refine absurd ?_ hfire
      unfold request_without_timeout
      rw [hgate]
      rfl
    | true =>
      have hpair := (Bool.and_eq_true _ _).mp hgate
      exact ⟨hpair.1, List.mem_of_elem_eq_true hpair.2⟩
  · rintro ⟨h1, h2⟩
    have h2b : http_verbs.contains context.call_function_name = true := by
      simpa using h2
    simp [request_without_timeout, h1, h2, h2b, hto]

/-- Fixture for the C9 witness: a call qualified as my_requests_util.get —
not the requests module, but its name contains the substring. -/
def ctxC9 : Context :=
  { node := PyNode.Call PyExpr.Other [], call_function_name_qual := "my_requests_util.get",
    call_function_name := "get", call_args := [], call_keywords := [], imports := [],
    get_lineno_for_call_arg := fun _ => none }

/-- Witness for C9: the my_requests_util.get call with no timeout is
flagged. -/
theorem b113_substring_gate_witness :
    request_without_timeout ctxC9 ≠ none :=
  (b113_substring_gate ctxC9 rfl).mpr ⟨by decide, by decide⟩

/-- C10: with a paramiko import visible and the right callee name, the B507
detector fires exactly when the call has a first positional argument
resolving to exactly AutoAddPolicy or WarningPolicy; a call with zero
positional arguments (in particular a keyword-only call) or an unresolved
first argument yields no Issue, and WarningPolicy is handled identically to
AutoAddPolicy. -/
theorem ssh_b507_argument_gate (context : Context)
    (himp : is_module_imported_like context "paramiko" = true)
    (hname : context.call_function_name = "set_missing_host_key_policy") :
    (ssh_no_host_key_verification context ≠ none ↔
      ∃ v rest, context.call_args = some v :: rest ∧
        (v = "AutoAddPolicy" ∨ v = "WarningPolicy")) ∧
    (context.call_args = [] → ssh_no_host_key_verification context = none) ∧
    (∀ rest, context.call_args = none :: rest →
      ssh_no_host_key_verification context = none) ∧
    (∀ rest, context.call_args = some "WarningPolicy" :: rest →
      ssh_no_host_key_verification context =
        ssh_no_host_key_verification
          { context with call_args := some "AutoAddPolicy" :: rest }) := by
  refine ⟨⟨?_, ?_⟩, ?_, ?_, ?_⟩
  · intro hfire
    cases hargs : context.call_args with
    | nil =>
      exact absurd (by simp [ssh_no_host_key_verification, hargs]) hfire
    | cons a rest =>
      cases a with
      | none =>
        exact absurd (by simp [ssh_no_host_key_verification, hargs]) hfire
      | some v =>
        cases hv : (v == "AutoAddPolicy" || v == "WarningPolicy") with
        | false =>
          exact absurd (by simp [ssh_no_host_key_verification, hargs, hv]) hfire
        | true =>
          refine ⟨v, rest, rfl, ?_⟩
          simpa using hv
  · rintro ⟨v, rest, hargs, hv⟩
    rcases hv with rfl | rfl <;>
      simp [ssh_no_host_key_verification, himp, hname, hargs]
  · intro hargs
    simp [ssh_no_host_key_verification, hargs]
  · intro rest hargs
    simp [ssh_no_host_key_verification, hargs]
  · intro rest hargs
    have hgate : (is_module_imported_like context "paramiko" &&
        (context.call_function_name == "set_missing_host_key_policy")) = true := by
      rw [himp, hname]
      rfl
    have hgate2 : (is_module_imported_like
          { context with call_args := some "AutoAddPolicy" :: rest } "paramiko" &&
        (({ context with call_args := some "AutoAddPolicy" :: rest } : Context).call_function_name ==
          "set_missing_host_key_policy")) = true := hgate
    unfold ssh_no_host_key_verification
    rw [hgate, hgate2, hargs]
    rfl

/-- Fixture for the C10 witness: a WarningPolicy call under a paramiko
import. -/
def ctxC10 : Context :=
  { node := PyNode.Call PyExpr.Other [PyExpr.Name "WarningPolicy"],
    call_function_name_qual := "ssh_client.set_missing_host_key_policy",
    call_function_name := "set_missing_host_key_policy",
    call_args := [some "WarningPolicy"], call_keywords := [], imports := ["paramiko"],
    get_lineno_for_call_arg := fun _ => some 5 }

/-- Witness for C10: the WarningPolicy call fires. -/
theorem ssh_b507_argument_gate_witness :
    ssh_no_host_key_verification ctxC10 ≠ none :=
  (ssh_b507_argument_gate ctxC10 rfl rfl).1.mpr
    ⟨"WarningPolicy", [], rfl, Or.inr rfl⟩

end Tjiep
